import Mathlib

/-!
Verification of the UrChats cryptographic core against its design document.

The development shallowly embeds the Python sources:
* `flightcodev2CLI.py` — `CryptoService.encrypt_data` / `CryptoService.decrypt_data`
  (the encrypted-at-rest container codec, AES-256-GCM + Argon2id);
* `chat.py` — `ChatManager.send_message`, `ChatManager.receive_messages`,
  `ChatManager._try_decrypt_with_old_keys` (the NaCl-box message cipher and
  the retired-key fallback search);
* `key_rotate.py` — `KeyRotationManager.rotate_key`,
  `KeyRotationManager.check_key_rotation_needed` (the rotation engine).

Cryptographic primitives (AES-GCM, Argon2id, the NaCl box) are external
libraries, not code of this repository; they are abstracted as structures
(`AEAD`, `BoxScheme`) whose fields state exactly the library contracts the
code relies on (round-trip of authenticated encryption, fixed tag size).
All byte strings are `List Nat` (each entry a byte value).  Randomness
(`os.urandom`, `PrivateKey.generate`, `nacl.utils.random`) and clock reads
(`datetime.now`) are passed in as explicit arguments.
-/

namespace UrChats

/-- Byte strings: Python `bytes` values as lists of byte values. -/
abbrev Bytes := List Nat

/-- Abstract AEAD cipher, standing for AES-256-GCM from the `cryptography`
library (an external dependency, not repository code).  `enc key nonce ad
plaintext` returns `(ciphertext, tag)`; `dec key nonce ad ciphertext tag`
returns the plaintext exactly when the tag verifies (`decryptor.finalize`
raises `InvalidTag` otherwise, modelled as `none`).  The two proof fields
are the documented contracts of GCM that the repository relies on: the tag
is 16 bytes, and decryption inverts encryption under matching inputs. -/
structure AEAD where
  enc : Bytes → Bytes → Bytes → Bytes → Bytes × Bytes
  dec : Bytes → Bytes → Bytes → Bytes → Bytes → Option Bytes
  tag_size : ∀ k n ad p, (enc k n ad p).2.length = 16
  dec_enc : ∀ k n ad p, dec k n ad (enc k n ad p).1 (enc k n ad p).2 = some p

/-- `len(metadata).to_bytes(2, byteorder='big')` from
`CryptoService.encrypt_data` (`flightcodev2CLI.py`).  Python raises
`OverflowError` for lengths ≥ 2^16; the reduction mod 256 per byte makes
the function total, and every theorem that relies on inversion carries the
`< 65536` bound Python enforces. -/
def toBytesBE2 (n : Nat) : Bytes := [n / 256 % 256, n % 256]

/-- `int.from_bytes(b, byteorder='big')` from `CryptoService.decrypt_data`. -/
def intFromBytesBE (b : Bytes) : Nat := b.foldl (fun a x => 256 * a + x) 0

/-- `CryptoService.encrypt_data(data, password)` from `flightcodev2CLI.py`
lines 104–138.  `salt` (16 random bytes), `nonce` (12 random bytes) and
`metadata` (the `FlightCode v2.0 - <timestamp>` associated-data string,
whose exact contents depend on the clock) are explicit arguments standing
for the RNG and clock draws; `kdf` stands for Argon2id key derivation
(`derive_key`).  Output layout is the source's final return expression:
`salt + nonce + tag + metadata_length + metadata + ciphertext`. -/
def encrypt_data (A : AEAD) (kdf : String → Bytes → Bytes)
    (data : Bytes) (password : String) (salt nonce metadata : Bytes) : Bytes :=
  let key := kdf password salt
  let ciphertext := (A.enc key nonce metadata data).1
  let tag := (A.enc key nonce metadata data).2
  salt ++ nonce ++ tag ++ toBytesBE2 metadata.length ++ metadata ++ ciphertext

/-- The two failure modes of `CryptoService.decrypt_data`: `formatError` is
Python's `ValueError("Invalid encrypted data format")`, `authenticationError`
is `cryptography.exceptions.InvalidTag`. -/
inductive DecryptError where
  | formatError
  | authenticationError
deriving DecidableEq

/-- The fields `decrypt_data` slices out of a container. -/
structure ContainerFields where
  salt : Bytes
  nonce : Bytes
  tag : Bytes
  assocLen : Nat
  assocData : Bytes
  ciphertext : Bytes
deriving DecidableEq

/-- The slicing performed by `CryptoService.decrypt_data` lines 160–182:
`salt = b[:16]`, `nonce = b[16:28]`, `tag = b[28:44]`,
`assocLen = int.from_bytes(b[44:46], 'big')`, `assocData = b[46:46+L]`,
`ciphertext = b[46+L:]`.  Like Python slices, `take`/`drop` clamp at the
end of the buffer. -/
def parseFields (b : Bytes) : ContainerFields :=
  let L := intFromBytesBE ((b.drop 44).take 2)
  { salt := b.take 16
    nonce := (b.drop 16).take 12
    tag := (b.drop 28).take 16
    assocLen := L
    assocData := (b.drop 46).take L
    ciphertext := b.drop (46 + L) }

/-- `CryptoService.decrypt_data(encrypted_data, password)` from
`flightcodev2CLI.py` lines 141–195.  The only explicit format check in the
source is `len(encrypted_data) < SALT_SIZE + NONCE_SIZE + TAG_SIZE + 2`
(i.e. `< 46`), which raises `ValueError`; otherwise the fields are sliced
out and GCM decryption is attempted, raising `InvalidTag` on tag-verification
failure. -/
def decrypt_data (A : AEAD) (kdf : String → Bytes → Bytes)
    (encrypted_data : Bytes) (password : String) : Except DecryptError Bytes :=
  if encrypted_data.length < 16 + 12 + 16 + 2 then
    .error .formatError
  else
    let f := parseFields encrypted_data
    let key := kdf password f.salt
    match A.dec key f.nonce f.assocData f.ciphertext f.tag with
    | some p => .ok p
    | none => .error .authenticationError

/-- Concrete stand-in tag function for the executable AEAD instance below. -/
def tagOf (k n ad c : Bytes) : Bytes :=
  List.replicate 16 ((k.sum + 2 * n.sum + 3 * ad.sum + 5 * c.sum) % 256)

/-- An executable instance of `AEAD`, used only to evaluate the theorems on
concrete inputs (it is a stand-in for the external AES-GCM library, which is
not repository code). -/
def toyAEAD : AEAD where
  enc := fun k n ad p => (p, tagOf k n ad p)
  dec := fun k n ad c t => if t = tagOf k n ad c then some c else none
  tag_size := fun k n ad p => by simp [tagOf]
  dec_enc := fun k n ad p => by simp

/-- An executable stand-in for Argon2id key derivation. -/
def toyKdf (password : String) (salt : Bytes) : Bytes :=
  (password.toList.map Char.toNat) ++ salt

/-- A 46-byte container whose declared `assoc_len` field is `1` although no
bytes remain after the fixed fields: the declared associated-data length
overruns the buffer. -/
def overrunContainer : Bytes := List.replicate 44 0 ++ [0, 1]

/-- Abstract public-key authenticated encryption, standing for the NaCl
`Box` construction from PyNaCl (an external dependency, not repository
code).  Private and public keys are `Nat`; `pubOf` is `PrivateKey.public_key`;
`seal a bp n m` is `Box(a, bp).encrypt(m, n)`; `openBox b ap c` is
`Box(b, ap).decrypt(c)`, returning `none` when PyNaCl raises (authentication
failure).  The proof field is the library contract the repository relies on:
a box sealed from `a` to `b` opens with `(b, pubOf a)`. -/
structure BoxScheme where
  pubOf : Nat → Nat
  sealBox : Nat → Nat → Bytes → Bytes → Bytes
  openBox : Nat → Nat → Bytes → Option Bytes
  open_seal : ∀ a b n m, openBox b (pubOf a) (sealBox a (pubOf b) n m) = some m

/-- A stored keypair dictionary
`{"private_key": ..., "public_key": ..., "created_at": ...}` as built by
`rotate_key` and `_initialize_chat_keypair`. -/
structure Keypair where
  private_key : Nat
  public_key : Nat
  created_at : String
deriving DecidableEq

/-- One entry of `user_data['db_profiles']`: the per-namespace record with a
`current_keypair` (possibly `None`) and an `old_keys` list (the key may be
absent from the dictionary, hence `Option`). -/
structure DbProfile where
  current_keypair : Option Keypair
  old_keys : Option (List Keypair)
deriving DecidableEq

/-- The `user_data` dictionary: username, identity keypair (base64 strings
in the source, abstract key values here) and the `db_profiles` table mapping
a Supabase URL to its `DbProfile` (a Python dict, modelled as an association
list with unique keys). -/
structure UserData where
  username : String
  identity_private_key : Nat
  identity_public_key : Nat
  db_profiles : List (String × DbProfile)
deriving DecidableEq

/-- Python dict lookup `db_profiles[url]` / `url in db_profiles`. -/
def lookupIn (ps : List (String × DbProfile)) (url : String) : Option DbProfile :=
  match ps with
  | [] => none
  | e :: rest => if e.1 = url then some e.2 else lookupIn rest url

/-- `url in self.user_data['db_profiles']` plus the subsequent indexing. -/
def lookupProfile (u : UserData) (url : String) : Option DbProfile :=
  lookupIn u.db_profiles url

/-- Python dict update `db_profiles[url] = p` for a key already present. -/
def setIn (ps : List (String × DbProfile)) (url : String) (p : DbProfile) :
    List (String × DbProfile) :=
  ps.map (fun e => if e.1 = url then (e.1, p) else e)

/-- `KeyRotationManager.rotate_key` from `key_rotate.py` lines 33–102,
restricted to its state transformation on `user_data` (the database publish
and the encrypted-profile save are external I/O).  If the namespace URL has
no profile the function prints and returns `False` (`none` here).  Otherwise:
if a `current_keypair` exists it is appended to `old_keys` (creating the
`old_keys` entry if absent); a fresh chat keypair (`newChatPriv`, drawn by
`PrivateKey.generate()`) becomes current with timestamp `now`; and the
identity keypair is regenerated wholesale from `newIdPriv` — the previous
identity private key is not retained anywhere. -/
def rotate_key (scheme : BoxScheme) (u : UserData) (url : String)
    (newChatPriv newIdPriv : Nat) (now : String) : Option UserData :=
  match lookupProfile u url with
  | none => none
  | some profile =>
    let retired : Option (List Keypair) :=
      match profile.current_keypair with
      | some ck => some (profile.old_keys.getD [] ++ [ck])
      | none => profile.old_keys
    let newProfile : DbProfile :=
      { current_keypair := some
          { private_key := newChatPriv
            public_key := scheme.pubOf newChatPriv
            created_at := now }
        old_keys := retired }
    some
      { username := u.username
        identity_private_key := newIdPriv
        identity_public_key := scheme.pubOf newIdPriv
        db_profiles := setIn u.db_profiles url newProfile }

/-- Python `s.split(' ')[0]`: the date portion of a
`"%Y-%m-%d %H:%M:%S"` timestamp. -/
def datePart (s : String) : String := s.takeWhile (fun c => c ≠ ' ')

/-- `KeyRotationManager.check_key_rotation_needed` from `key_rotate.py`
lines 104–137: returns `False` when the namespace URL has no profile; `True`
when the profile has no (falsy) `current_keypair`; otherwise compares only
the date portions of `created_at` and the current time (`now`, a clock
read passed explicitly). -/
def check_key_rotation_needed (u : UserData) (url : String) (now : String) : Bool :=
  match lookupProfile u url with
  | none => false
  | some profile =>
    match profile.current_keypair with
    | none => true
    | some ck => datePart ck.created_at != datePart now

/-- The record `ChatManager.send_message` hands to
`db_manager.send_message(self.username, recipient_username, ciphertext)`. -/
structure SentRecord where
  sender : String
  recipient : String
  ciphertext : Bytes
deriving DecidableEq

/-- `ChatManager.send_message` from `chat.py` lines 75–105: seals the
message with `Box(self.identity_private_key, recipient_public_key)` under a
fresh random nonce (passed explicitly) and hands sender, recipient and
ciphertext to the database collaborator.  It reads only `username` and
`identity_private_key` from `user_data` and performs no mutation, which is
why the embedding takes the whole `UserData` but returns only the sent
record. -/
def send_message (scheme : BoxScheme) (u : UserData)
    (recipient_username : String) (recipient_public_key : Nat)
    (message : Bytes) (nonce : Bytes) : SentRecord :=
  { sender := u.username
    recipient := recipient_username
    ciphertext := scheme.sealBox u.identity_private_key recipient_public_key nonce message }

/-- One fetched row of `db_manager.get_messages`. -/
structure InboxMsg where
  sender_username : String
  timestamp : String
  ciphertext : Bytes
deriving DecidableEq

/-- One entry of the list `ChatManager.receive_messages` returns. -/
structure DecryptedMsg where
  sender_username : String
  timestamp : String
  decrypted_content : Bytes
deriving DecidableEq

/-- The `for key_data in db_profile.get('old_keys', [])` loop of
`ChatManager._try_decrypt_with_old_keys`: try each retired key in list
order (oldest first, since `rotate_key` appends), returning at the first
success, `None` if every key fails. -/
def tryKeys (scheme : BoxScheme) (senderPub : Nat) (ct : Bytes) :
    List Keypair → Option Bytes
  | [] => none
  | k :: rest =>
    match scheme.openBox k.private_key senderPub ct with
    | some m => some m
    | none => tryKeys scheme senderPub ct rest

/-- `ChatManager._try_decrypt_with_old_keys` from `chat.py` lines 163–206:
returns `None` when the namespace URL has no profile, otherwise searches the
profile's `old_keys` (treating an absent key as the empty list). -/
def tryDecryptWithOldKeys (scheme : BoxScheme) (u : UserData) (url : String)
    (ciphertext : Bytes) (senderPub : Nat) : Option Bytes :=
  match lookupProfile u url with
  | none => none
  | some profile => tryKeys scheme senderPub ciphertext (profile.old_keys.getD [])

/-- The per-message body of the `ChatManager.receive_messages` loop
(`chat.py` lines 120–156): look up the sender's public key in the directory
(`db_manager.get_user_public_key`, the `dir` argument), skipping the message
if absent; open with the receiver's current identity private key; on
failure fall back to `_try_decrypt_with_old_keys`; `none` means the message
is skipped. -/
def decryptOne (scheme : BoxScheme) (u : UserData) (url : String)
    (dir : String → Option Nat) (msg : InboxMsg) : Option DecryptedMsg :=
  match dir msg.sender_username with
  | none => none
  | some senderPub =>
    match scheme.openBox u.identity_private_key senderPub msg.ciphertext with
    | some m =>
      some { sender_username := msg.sender_username
             timestamp := msg.timestamp
             decrypted_content := m }
    | none =>
      match tryDecryptWithOldKeys scheme u url msg.ciphertext senderPub with
      | some m =>
        some { sender_username := msg.sender_username
               timestamp := msg.timestamp
               decrypted_content := m }
      | none => none

/-- `ChatManager.receive_messages` from `chat.py` lines 107–161: process the
fetched batch message by message, appending each successful decryption and
skipping failures (the `except` path continues the loop). -/
def receive_messages (scheme : BoxScheme) (u : UserData) (url : String)
    (dir : String → Option Nat) (msgs : List InboxMsg) : List DecryptedMsg :=
  msgs.filterMap (decryptOne scheme u url dir)

/-- An executable instance of `BoxScheme`, used only to evaluate the
theorems on concrete inputs (a stand-in for the external PyNaCl library,
which is not repository code): the public key equals the private key, the
shared secret of `(a, pubOf b)` is the product `a * b`, and a sealed box is
the shared secret prepended to the message. -/
def toyBox : BoxScheme where
  pubOf := id
  sealBox := fun a bp _n m => (a * bp) :: m
  openBox := fun b ap c =>
    match c with
    | [] => none
    | s :: rest => if s = b * ap then some rest else none
  open_seal := by
    intro a b n m
    simp [Nat.mul_comm a b]

/-- Concrete directory: only "bob" is registered, with public key 5. -/
def dirEx : String → Option Nat := fun s => if s = "bob" then some 5 else none

/-- A principal before rotation: identity keypair 2, namespace "db" with
current chat keypair 7 and no retired keys. -/
def alice0 : UserData :=
  { username := "alice"
    identity_private_key := 2
    identity_public_key := 2
    db_profiles :=
      [("db",
        { current_keypair := some
            { private_key := 7, public_key := 7
              created_at := "2026-10-10 09:00:00" }
          old_keys := some [] })] }

/-- A message sealed by bob (private key 5) against alice's pre-rotation
identity public key 2. -/
def bobMsg : InboxMsg :=
  { sender_username := "bob"
    timestamp := "t1"
    ciphertext := toyBox.sealBox 5 2 [] [42] }

/-- A retired keypair that fails to open the test ciphertext. -/
def kpFail : Keypair :=
  { private_key := 7, public_key := 7, created_at := "2026-10-08 10:00:00" }

/-- The retired keypair that opens the test ciphertext. -/
def kpOld : Keypair :=
  { private_key := 2, public_key := 2, created_at := "2026-10-09 10:00:00" }

/-- A principal whose namespace "db" holds two retired keypairs, the second
of which opens the test ciphertext. -/
def uW : UserData :=
  { username := "alice"
    identity_private_key := 3
    identity_public_key := 3
    db_profiles :=
      [("db",
        { current_keypair := some
            { private_key := 11, public_key := 11
              created_at := "2026-10-10 09:00:00" }
          old_keys := some [kpFail, kpOld] })] }

/-- A principal with an empty namespace table. -/
def aliceNoNs : UserData :=
  { username := "alice"
    identity_private_key := 1
    identity_public_key := 1
    db_profiles := [] }

theorem take_append_len {α : Type} (l₁ l₂ : List α) (n : Nat)
    (h : l₁.length = n) : (l₁ ++ l₂).take n = l₁ :=
  List.take_left' h

theorem drop_append_len {α : Type} (l₁ l₂ : List α) (n : Nat)
    (h : l₁.length = n) : (l₁ ++ l₂).drop n = l₂ :=
  List.drop_left' h

theorem intFromBytesBE_toBytesBE2 (n : Nat) (h : n < 65536) :
    intFromBytesBE (toBytesBE2 n) = n := by
  simp only [intFromBytesBE, toBytesBE2, List.foldl]
  have h1 : n / 256 < 256 := by omega
  rw [Nat.mod_eq_of_lt h1]
  omega

/-- The container produced by `encrypt_data` parses back into exactly its
constituent fields. -/
theorem parseFields_encrypt (A : AEAD) (kdf : String → Bytes → Bytes)
    (data : Bytes) (password : String) (salt nonce metadata : Bytes)
    (hs : salt.length = 16) (hn : nonce.length = 12)
    (hm : metadata.length < 65536) :
    parseFields (encrypt_data A kdf data password salt nonce metadata) =
      { salt := salt
        nonce := nonce
        tag := (A.enc (kdf password salt) nonce metadata data).2
        assocLen := metadata.length
        assocData := metadata
        ciphertext := (A.enc (kdf password salt) nonce metadata data).1 } := by
  have ht : (A.enc (kdf password salt) nonce metadata data).2.length = 16 :=
    A.tag_size _ _ _ _
  have hl : (toBytesBE2 metadata.length).length = 2 := rfl
  set key := kdf password salt with hkey
  set ct := (A.enc key nonce metadata data).1 with hct
  set tg := (A.enc key nonce metadata data).2 with htg
  have hb : encrypt_data A kdf data password salt nonce metadata =
      salt ++ (nonce ++ (tg ++ (toBytesBE2 metadata.length ++ (metadata ++ ct)))) := by
    simp [encrypt_data, ← hkey, ← hct, ← htg, List.append_assoc]
  rw [hb]
  have d16 : (salt ++ (nonce ++ (tg ++ (toBytesBE2 metadata.length ++ (metadata ++ ct))))).drop 16 =
      nonce ++ (tg ++ (toBytesBE2 metadata.length ++ (metadata ++ ct))) :=
    drop_append_len _ _ _ hs
  have d28 : (salt ++ (nonce ++ (tg ++ (toBytesBE2 metadata.length ++ (metadata ++ ct))))).drop 28 =
      tg ++ (toBytesBE2 metadata.length ++ (metadata ++ ct)) := by
    have : (28 : Nat) = 16 + 12 := by omega
    rw [this, ← List.drop_drop, d16]
    exact drop_append_len _ _ _ hn
  have d44 : (salt ++ (nonce ++ (tg ++ (toBytesBE2 metadata.length ++ (metadata ++ ct))))).drop 44 =
      toBytesBE2 metadata.length ++ (metadata ++ ct) := by
    have : (44 : Nat) = 28 + 16 := by omega
    rw [this, ← List.drop_drop, d28]
    exact drop_append_len _ _ _ ht
  have d46 : (salt ++ (nonce ++ (tg ++ (toBytesBE2 metadata.length ++ (metadata ++ ct))))).drop 46 =
      metadata ++ ct := by
    have : (46 : Nat) = 44 + 2 := by omega
    rw [this, ← List.drop_drop, d44]
    exact drop_append_len _ _ _ hl
  have hL : intFromBytesBE
      (((salt ++ (nonce ++ (tg ++ (toBytesBE2 metadata.length ++ (metadata ++ ct))))).drop 44).take 2) =
      metadata.length := by
    rw [d44, take_append_len _ _ _ hl]
    exact intFromBytesBE_toBytesBE2 _ hm
  simp only [parseFields, hL, ContainerFields.mk.injEq]
  refine ⟨?_, ?_, ?_, trivial, ?_, ?_⟩
  · exact take_append_len _ _ _ hs
  · rw [d16]; exact take_append_len _ _ _ hn
  · rw [d28]; exact take_append_len _ _ _ ht
  · rw [d46]; exact take_append_len _ _ _ rfl
  · rw [← List.drop_drop, d46]
    exact drop_append_len _ _ _ rfl

theorem encrypt_length (A : AEAD) (kdf : String → Bytes → Bytes)
    (data : Bytes) (password : String) (salt nonce metadata : Bytes)
    (hs : salt.length = 16) (hn : nonce.length = 12) :
    ¬ (encrypt_data A kdf data password salt nonce metadata).length < 16 + 12 + 16 + 2 := by
  have ht : (A.enc (kdf password salt) nonce metadata data).2.length = 16 :=
    A.tag_size _ _ _ _
  simp only [encrypt_data, List.length_append, toBytesBE2, List.length_cons,
    List.length_nil, hs, hn]
  omega

/-- Claim C1: container round-trip — for every plaintext byte sequence `p`
and password `w` (and every RNG/clock draw of salt, nonce and metadata of
the sizes the source produces), decrypting `encrypt_data p w` with the same
password returns exactly `p`. -/
theorem container_round_trip (A : AEAD) (kdf : String → Bytes → Bytes)
    (p : Bytes) (w : String) (salt nonce metadata : Bytes)
    (hs : salt.length = 16) (hn : nonce.length = 12)
    (hm : metadata.length < 65536) :
    decrypt_data A kdf (encrypt_data A kdf p w salt nonce metadata) w = .ok p := by
  have hlen := encrypt_length A kdf p w salt nonce metadata hs hn
  have hparse := parseFields_encrypt A kdf p w salt nonce metadata hs hn hm
  simp only [decrypt_data, if_neg hlen, hparse]
  rw [A.dec_enc]

/-- Claim C1 witness: the round-trip evaluated on a concrete plaintext and
password with the executable AEAD instance. -/
theorem container_round_trip_witness :
    decrypt_data toyAEAD toyKdf
      (encrypt_data toyAEAD toyKdf [1, 2, 3] "pw" (List.replicate 16 0)
        (List.replicate 12 9) [70, 67]) "pw" = .ok [1, 2, 3] :=
  container_round_trip toyAEAD toyKdf [1, 2, 3] "pw" (List.replicate 16 0)
    (List.replicate 12 9) [70, 67] (by simp) (by simp) (by simp)

/-- Claim C4: the byte string produced by `encrypt_data` is exactly
`salt(16) ++ nonce(12) ++ tag(16) ++ assoc_len(2, big-endian) ++
associated_data ++ ciphertext`, the length field is the big-endian 2-byte
encoding of the associated-data length, and `decrypt_data`'s parser
(`parseFields`) recovers each field at exactly these offsets. -/
theorem encrypt_layout (A : AEAD) (kdf : String → Bytes → Bytes)
    (p : Bytes) (w : String) (salt nonce metadata : Bytes)
    (hs : salt.length = 16) (hn : nonce.length = 12)
    (hm : metadata.length < 65536) :
    encrypt_data A kdf p w salt nonce metadata =
      salt ++ nonce ++ (A.enc (kdf w salt) nonce metadata p).2 ++
        toBytesBE2 metadata.length ++ metadata ++
        (A.enc (kdf w salt) nonce metadata p).1 ∧
    toBytesBE2 metadata.length = [metadata.length / 256, metadata.length % 256] ∧
    parseFields (encrypt_data A kdf p w salt nonce metadata) =
      { salt := salt
        nonce := nonce
        tag := (A.enc (kdf w salt) nonce metadata p).2
        assocLen := metadata.length
        assocData := metadata
        ciphertext := (A.enc (kdf w salt) nonce metadata p).1 } := by
  refine ⟨rfl, ?_, parseFields_encrypt A kdf p w salt nonce metadata hs hn hm⟩
  have h1 : metadata.length / 256 < 256 := by omega
  simp [toBytesBE2, Nat.mod_eq_of_lt h1]

/-- Claim C4 witness: the layout and parse evaluated on concrete inputs with
the executable AEAD instance. -/
theorem encrypt_layout_witness :
    parseFields (encrypt_data toyAEAD toyKdf [7, 8] "k" (List.replicate 16 1)
        (List.replicate 12 2) [65, 66, 67]) =
      { salt := List.replicate 16 1
        nonce := List.replicate 12 2
        tag := (toyAEAD.enc (toyKdf "k" (List.replicate 16 1))
          (List.replicate 12 2) [65, 66, 67] [7, 8]).2
        assocLen := 3
        assocData := [65, 66, 67]
        ciphertext := (toyAEAD.enc (toyKdf "k" (List.replicate 16 1))
          (List.replicate 12 2) [65, 66, 67] [7, 8]).1 } :=
  (encrypt_layout toyAEAD toyKdf [7, 8] "k" (List.replicate 16 1)
    (List.replicate 12 2) [65, 66, 67] (by simp) (by simp) (by simp)).2.2

/-- Claim C3 counterexample: on a container whose declared `assoc_len`
overruns the remaining buffer, `decrypt_data` does not fail with
`formatError`; the Python slices clamp silently, decryption is attempted on
the truncated fields, and the outcome here is `authenticationError`. -/
theorem decrypt_overrun_counterexample :
    overrunContainer.length = 46 ∧
    (parseFields overrunContainer).assocLen = 1 ∧
    (parseFields overrunContainer).assocData = [] ∧
    decrypt_data toyAEAD toyKdf overrunContainer "x" =
      .error .authenticationError := by
  exact ⟨by decide, by decide, by decide, rfl⟩

/-- Claim C3 (amended): `decrypt_data` fails with `formatError` exactly when
the input is shorter than 46 bytes; a declared `assoc_len` that overruns the
buffer is not detected as a format error (the slices clamp and authenticated
decryption is attempted on the truncated fields). -/
theorem decrypt_format_check (A : AEAD) (kdf : String → Bytes → Bytes)
    (b : Bytes) (w : String) :
    (b.length < 46 → decrypt_data A kdf b w = .error .formatError) ∧
    (46 ≤ b.length → decrypt_data A kdf b w ≠ .error .formatError) := by
  constructor
  · intro h
    have h' : b.length < 16 + 12 + 16 + 2 := by omega
    simp [decrypt_data, h']
  · intro h
    have h' : ¬ b.length < 16 + 12 + 16 + 2 := by omega
    simp only [decrypt_data, if_neg h']
    split <;> simp

/-- Claim C3 witness: the amended statement evaluated at a short input and at
an input whose declared `assoc_len` overruns the buffer. -/
theorem decrypt_format_check_witness :
    decrypt_data toyAEAD toyKdf [] "a" = .error .formatError ∧
    decrypt_data toyAEAD toyKdf overrunContainer "x" ≠ .error .formatError :=
  ⟨(decrypt_format_check toyAEAD toyKdf [] "a").1 (by decide),
   (decrypt_format_check toyAEAD toyKdf overrunContainer "x").2 (by decide)⟩

/-- Claim C5: on any container that passes the length check, `decrypt_data`
returns plaintext only when GCM tag verification (`A.dec` returning `some`)
succeeds over the embedded nonce, associated data and ciphertext; whenever
the tag does not verify (`A.dec` returns `none` — in particular under a
password deriving a different key, or after any alteration of ciphertext,
tag or associated data that breaks verification), the result is the single
error `authenticationError` and no plaintext bytes are released. -/
theorem decrypt_authenticated (A : AEAD) (kdf : String → Bytes → Bytes)
    (b : Bytes) (w : String) (h : 46 ≤ b.length) :
    (∀ p, decrypt_data A kdf b w = .ok p →
      A.dec (kdf w (parseFields b).salt) (parseFields b).nonce
        (parseFields b).assocData (parseFields b).ciphertext
        (parseFields b).tag = some p) ∧
    (A.dec (kdf w (parseFields b).salt) (parseFields b).nonce
        (parseFields b).assocData (parseFields b).ciphertext
        (parseFields b).tag = none →
      decrypt_data A kdf b w = .error .authenticationError) := by
  have h' : ¬ b.length < 16 + 12 + 16 + 2 := by omega
  constructor
  · intro p hp
    simp only [decrypt_data, if_neg h'] at hp
    split at hp
    · rename_i q hq
      cases hp
      exact hq
    · cases hp
  · intro hnone
    simp only [decrypt_data, if_neg h', hnone]

/-- Claim C5 witness: a concrete 46-byte container whose tag does not verify
under the executable AEAD instance yields exactly `authenticationError`. -/
theorem decrypt_authenticated_witness :
    decrypt_data toyAEAD toyKdf (List.replicate 46 0) "x" =
      .error .authenticationError :=
  (decrypt_authenticated toyAEAD toyKdf (List.replicate 46 0) "x"
    (by decide)).2 (by decide)

/-- Claim C6: message seal round-trip — for every pair of identity keypairs
`A` (private key `a`) and `B` (private key `b`), every message `m` and every
nonce, a message sealed by `send_message` from `A` against `B`'s public key
and then received by `B` (with the directory resolving `A`'s username to
`A`'s public key) decrypts to exactly `m`. -/
theorem seal_open_round_trip (scheme : BoxScheme) (aName bName : String)
    (a b : Nat) (m n : Bytes) (ts url : String) :
    receive_messages scheme
      { username := bName
        identity_private_key := b
        identity_public_key := scheme.pubOf b
        db_profiles := [] } url
      (fun s => if s = aName then some (scheme.pubOf a) else none)
      [{ sender_username := aName
         timestamp := ts
         ciphertext := (send_message scheme
           { username := aName
             identity_private_key := a
             identity_public_key := scheme.pubOf a
             db_profiles := [] }
           bName (scheme.pubOf b) m n).ciphertext }] =
      [{ sender_username := aName, timestamp := ts, decrypted_content := m }] := by
  simp [receive_messages, decryptOne, send_message, scheme.open_seal,
    List.filterMap]

/-- Every key of `l₁` fails, `k` succeeds: the search over `l₁ ++ k :: l₂`
returns `k`'s decryption (first success wins, later keys untried). -/
theorem tryKeys_first_success (scheme : BoxScheme) (senderPub : Nat)
    (ct : Bytes) (l₁ l₂ : List Keypair) (k : Keypair) (m : Bytes)
    (hfail : ∀ k' ∈ l₁, scheme.openBox k'.private_key senderPub ct = none)
    (hk : scheme.openBox k.private_key senderPub ct = some m) :
    tryKeys scheme senderPub ct (l₁ ++ k :: l₂) = some m := by
  induction l₁ with
  | nil => simp [tryKeys, hk]
  | cons x xs ih =>
    have hx := hfail x (by simp)
    simp only [List.cons_append, tryKeys, hx]
    exact ih fun k' hk' => hfail k' (by simp [hk'])

/-- Claim C7: fallback resolution — (i) a message that opens with the
receiver's current identity key is returned from that first attempt; (ii)
the retired keys of the current namespace are tried in list order (oldest
first, as `rotate_key` appends), stopping at the first key that succeeds;
(iii) a message no key decrypts yields `none` and (iv) is thereby excluded
from the batch result while the remaining messages are still processed. -/
theorem receive_fallback_resolution (scheme : BoxScheme) (u : UserData)
    (url : String) (dir : String → Option Nat) :
    (∀ msg pk m, dir msg.sender_username = some pk →
        scheme.openBox u.identity_private_key pk msg.ciphertext = some m →
        decryptOne scheme u url dir msg =
          some { sender_username := msg.sender_username
                 timestamp := msg.timestamp
                 decrypted_content := m }) ∧
    (∀ pk ct prof l₁ l₂ k m, lookupProfile u url = some prof →
        prof.old_keys.getD [] = l₁ ++ k :: l₂ →
        (∀ k' ∈ l₁, scheme.openBox k'.private_key pk ct = none) →
        scheme.openBox k.private_key pk ct = some m →
        tryDecryptWithOldKeys scheme u url ct pk = some m) ∧
    (∀ msg pk, dir msg.sender_username = some pk →
        scheme.openBox u.identity_private_key pk msg.ciphertext = none →
        tryDecryptWithOldKeys scheme u url msg.ciphertext pk = none →
        decryptOne scheme u url dir msg = none) ∧
    (∀ msg rest, decryptOne scheme u url dir msg = none →
        receive_messages scheme u url dir (msg :: rest) =
          receive_messages scheme u url dir rest) := by
  refine ⟨?_, ?_, ?_, ?_⟩
  · intro msg pk m hdir hopen
    simp [decryptOne, hdir, hopen]
  · intro pk ct prof l₁ l₂ k m hprof holdk hfail hk
    simp only [tryDecryptWithOldKeys, hprof, holdk]
    exact tryKeys_first_success scheme pk ct l₁ l₂ k m hfail hk
  · intro msg pk hdir hopen hold
    simp [decryptOne, hdir, hopen, hold]
  · intro msg rest h
    simp [receive_messages, List.filterMap_cons, h]

/-- Claim C7 witness: with retired keys `[kpFail, kpOld]`, the fallback
search skips the failing key and returns `kpOld`'s decryption; and a
message no key decrypts is dropped while the batch continues. -/
theorem receive_fallback_resolution_witness :
    tryDecryptWithOldKeys toyBox uW "db" [10, 99] 5 = some [99] ∧
    receive_messages toyBox uW "db" dirEx
      [{ sender_username := "bob", timestamp := "t2", ciphertext := [999] }] =
      receive_messages toyBox uW "db" dirEx [] :=
  ⟨(receive_fallback_resolution toyBox uW "db" dirEx).2.1 5 [10, 99]
      { current_keypair := some
          { private_key := 11, public_key := 11
            created_at := "2026-10-10 09:00:00" }
        old_keys := some [kpFail, kpOld] }
      [kpFail] [] kpOld [99] rfl rfl (by decide) (by decide),
   (receive_fallback_resolution toyBox uW "db" dirEx).2.2.2
      { sender_username := "bob", timestamp := "t2", ciphertext := [999] }
      [] rfl⟩

/-- Claim C2: evaluation of the receive path before and after rotation.
Before rotation the message bob sealed against alice's identity public key
decrypts; `rotate_key` then succeeds, but the rotated principal can no
longer decrypt it — the batch comes back empty, because `rotate_key`
discards the pre-rotation identity private key (it retires only the
namespace chat keypair, which is never used for sealing), so the
retired-key fallback search cannot recover the message.  The claim (spec
§8 scenario) says the message must still decrypt via fallback; the code
cannot satisfy it. -/
theorem rotation_breaks_identity_fallback :
    receive_messages toyBox alice0 "db" dirEx [bobMsg] =
      [{ sender_username := "bob", timestamp := "t1",
         decrypted_content := [42] }] ∧
    (rotate_key toyBox alice0 "db" 11 3 "2026-10-11 09:00:00").map
      (fun u1 => receive_messages toyBox u1 "db" dirEx [bobMsg]) = some [] :=
  ⟨rfl, rfl⟩

/-- Updating a key that is present makes subsequent lookup return the new
profile. -/
theorem lookupIn_setIn (ps : List (String × DbProfile)) (url : String)
    (p : DbProfile) (h : (lookupIn ps url).isSome) :
    lookupIn (setIn ps url p) url = some p := by
  induction ps with
  | nil => simp [lookupIn] at h
  | cons e rest ih =>
    by_cases he : e.1 = url
    · simp [setIn, lookupIn, he]
    · simp only [setIn, lookupIn, he, if_false, List.map_cons, if_neg he] at h ⊢
      exact ih h

/-- Claim C8: rotation monotonicity — for a principal whose namespace has a
current keypair `ck` not already retired (the no-duplicates invariant),
`rotate_key` succeeds and afterwards the namespace profile has: retired list
exactly the old retired list with `ck` appended (so every previously retired
keypair is still present, in its original order, nothing reordered, pruned
or deduplicated), in which `ck` occurs exactly once; and the freshly drawn
keypair installed as current. -/
theorem rotate_key_monotone (scheme : BoxScheme) (u : UserData) (url : String)
    (prof : DbProfile) (ck : Keypair) (newChatPriv newIdPriv : Nat)
    (now : String)
    (hp : lookupProfile u url = some prof)
    (hc : prof.current_keypair = some ck)
    (hmem : ck ∉ prof.old_keys.getD []) :
    ∃ u', rotate_key scheme u url newChatPriv newIdPriv now = some u' ∧
      ∃ prof', lookupProfile u' url = some prof' ∧
        prof'.old_keys = some (prof.old_keys.getD [] ++ [ck]) ∧
        (prof.old_keys.getD [] ++ [ck]).count ck = 1 ∧
        prof'.current_keypair = some
          { private_key := newChatPriv
            public_key := scheme.pubOf newChatPriv
            created_at := now } := by
  simp only [rotate_key, hp, hc]
  refine ⟨_, rfl, ?_⟩
  refine ⟨{ current_keypair := some
              { private_key := newChatPriv
                public_key := scheme.pubOf newChatPriv
                created_at := now }
            old_keys := some (prof.old_keys.getD [] ++ [ck]) },
    ?_, rfl, ?_, rfl⟩
  · exact lookupIn_setIn u.db_profiles url _ (by
      simp only [lookupProfile] at hp
      simp [hp])
  · rw [List.count_append, List.count_eq_zero.mpr hmem]
    simp

/-- Claim C8 witness: rotating `alice0` (current chat keypair 7, empty
retired list) retires keypair 7 exactly once and installs the fresh keypair
11 as current. -/
theorem rotate_key_monotone_witness :
    ∃ u', rotate_key toyBox alice0 "db" 11 3 "2026-10-11 09:00:00" = some u' ∧
      ∃ prof', lookupProfile u' "db" = some prof' ∧
        prof'.old_keys = some
          [{ private_key := 7, public_key := 7
             created_at := "2026-10-10 09:00:00" }] ∧
        ([{ private_key := 7, public_key := 7
            created_at := "2026-10-10 09:00:00" }] : List Keypair).count
          { private_key := 7, public_key := 7
            created_at := "2026-10-10 09:00:00" } = 1 ∧
        prof'.current_keypair = some
          { private_key := 11, public_key := 11
            created_at := "2026-10-11 09:00:00" } :=
  rotate_key_monotone toyBox alice0 "db"
    { current_keypair := some
        { private_key := 7, public_key := 7
          created_at := "2026-10-10 09:00:00" }
      old_keys := some [] }
    { private_key := 7, public_key := 7, created_at := "2026-10-10 09:00:00" }
    11 3 "2026-10-11 09:00:00" rfl rfl (by decide)

/-- Claim C9 counterexample: for a principal whose namespace entry is
entirely absent (hence has no current keypair), the claim says
`check_key_rotation_needed` reports rotation due; the code returns
`False`. -/
theorem rotation_due_absent_counterexample :
    lookupProfile aliceNoNs "db" = none ∧
    check_key_rotation_needed aliceNoNs "db" "2026-10-12 09:00:00" = false :=
  ⟨rfl, rfl⟩

/-- Claim C9 (amended): `check_key_rotation_needed` returns `true` iff the
namespace entry exists and either it has no current keypair or the current
keypair's `created_at` falls on a different calendar day (date portion) than
the current time; a record whose namespace entry is entirely absent is
reported as NOT due (the source returns `False` before ever checking for a
current keypair). -/
theorem check_key_rotation_needed_spec (u : UserData) (url now : String) :
    check_key_rotation_needed u url now = true ↔
      ∃ prof, lookupProfile u url = some prof ∧
        (prof.current_keypair = none ∨
          ∃ ck, prof.current_keypair = some ck ∧
            datePart ck.created_at ≠ datePart now) := by
  unfold check_key_rotation_needed
  rcases hl : lookupProfile u url with _ | prof
  · simp
  · rcases hc : prof.current_keypair with _ | ck
    · simp [hc]
    · simp [hc, bne_iff_ne]

/-- Claim C10: the sealed ciphertext and stored record produced by
`send_message` depend only on the sender's username, identity private key,
the recipient data, the message and the nonce — two principal records that
agree on those fields but have arbitrary, different namespace tables
(`db_profiles`) produce identical output, and `send_message` performs no
mutation of the record (the embedding returns only the sent record because
the source writes nothing back to `user_data`). -/
theorem send_message_namespace_independent (scheme : BoxScheme)
    (u1 u2 : UserData) (r : String) (pk : Nat) (m n : Bytes)
    (hname : u1.username = u2.username)
    (hpriv : u1.identity_private_key = u2.identity_private_key)
    (_hpub : u1.identity_public_key = u2.identity_public_key) :
    send_message scheme u1 r pk m n = send_message scheme u2 r pk m n ∧
    (send_message scheme u1 r pk m n).ciphertext =
      scheme.sealBox u1.identity_private_key pk n m := by
  exact ⟨by simp [send_message, hname, hpriv], rfl⟩

/-- Claim C10 witness: two records differing only in the namespace table
produce the same sent record. -/
theorem send_message_namespace_independent_witness :
    send_message toyBox alice0 "bob" 5 [42] [] =
      send_message toyBox
        { username := "alice"
          identity_private_key := 2
          identity_public_key := 2
          db_profiles := [] } "bob" 5 [42] [] :=
  (send_message_namespace_independent toyBox alice0
    { username := "alice"
      identity_private_key := 2
      identity_public_key := 2
      db_profiles := [] } "bob" 5 [42] [] rfl rfl rfl).1

end UrChats
